import Mathlib

/-!
Verification of the buoy-validation satellite grid-query code
(`src/libs/satellite.py` and `src/print_sat_data.py`) against its
natural-language specification.

The Python code is shallowly embedded: floating point numbers become `Rat`,
numpy arrays become lists, the netCDF grid file becomes the `Grid`
structure, Python exceptions become `Except PyError`, and the masked-array
missing semantics become explicit `Bool` masks / a `missing` value
constructor.  Modules imported by the code but absent from the repository
(`coordinatehelper`, `filterhelper`, `datetimehelper`) are modelled from
the specification and marked as such in their doc comments.
-/

/-- Python exceptions raised by the embedded code.  `SatDataException` for an
out-of-range coordinate carries a formatted message naming the axis, the
offending value and the valid range; we keep those components structured in
the `rangeErr` constructor.  `nameError` models a `NameError` from a
reference to an undefined name (it carries no repository data),
`keyError` a dictionary lookup failure, `attributeError` a call of a missing
attribute, and `assertionError` a failed bare `assert` statement (which
carries no message at all). -/
inductive PyError where
  | rangeErr (axis : String) (value lo hi : ℚ)
  | nameError
  | keyError (k : String)
  | attributeError
  | assertionError
  deriving DecidableEq, Repr

/-- Message text attached to an embedded Python exception, mirroring the
strings the source builds.  A bare `assert` and a `NameError` on the
identifier `variable` carry no repository data; a `SatDataException`
message is built from axis, value and range (kept structured here, the
message is their rendering). -/
def PyError.messageParts : PyError → List String
  | .rangeErr axis _ _ _ => [axis, "is outside", "range"]
  | .nameError => []
  | .keyError k => [k]
  | .attributeError => []
  | .assertionError => []

/-- Values stored in a `SatelliteDataPoint` / observation record: a numeric
scalar, a timestamp (seconds relative to the 1981-01-01 epoch, as the code
computes `start_date + timedelta(seconds=int(time[0]))`), a string, or the
masked/missing sentinel of a numpy masked array. -/
inductive PyVal where
  | num (q : ℚ)
  | timeVal (secs : ℤ)
  | str (s : String)
  | missing
  deriving DecidableEq, Repr

/-- Element of a 2-D rational array (numpy `arr[i][j]`), with a junk default
outside the bounds; theorems always constrain the indexes. -/
def cellR (m : List (List ℚ)) (i j : Nat) : ℚ := (m.getD i []).getD j 0

/-- Element of a 2-D boolean mask array. -/
def cellB (m : List (List Bool)) (i j : Nat) : Bool := (m.getD i []).getD j false

/-- Element of a 2-D integer array (the land/sea mask variable). -/
def cellN (m : List (List Nat)) (i j : Nat) : Nat := (m.getD i []).getD j 0

/-- Python `min(xs)` over a nonempty list, embedded with a junk value on the
empty list (where Python would raise `ValueError`; all uses are guarded by
nonemptiness hypotheses). -/
def listMin : List ℚ → ℚ
  | [] => 0
  | x :: xs => xs.foldl min x

/-- Python `max(xs)` over a nonempty list, same conventions as `listMin`. -/
def listMax : List ℚ → ℚ
  | [] => 0
  | x :: xs => xs.foldl max x

theorem foldl_min_mem (xs : List ℚ) (a : ℚ) : xs.foldl min a = a ∨ xs.foldl min a ∈ xs := by
  induction xs generalizing a with
  | nil => simp
  | cons y ys ih =>
    rcases ih (min a y) with h | h
    · rcases min_cases a y with ⟨h1, _⟩ | ⟨h1, _⟩
      · left; simpa [h1] using h
      · right; simp only [List.foldl_cons, h]; simp [h1]
    · right; simp [List.foldl_cons, h]

theorem foldl_min_le (xs : List ℚ) (a : ℚ) :
    xs.foldl min a ≤ a ∧ ∀ x ∈ xs, xs.foldl min a ≤ x := by
  induction xs generalizing a with
  | nil => simp
  | cons y ys ih =>
    simp only [List.foldl_cons]
    have h := ih (min a y)
    refine ⟨le_trans h.1 (min_le_left a y), ?_⟩
    intro x hx
    rcases List.mem_cons.mp hx with hx | hx
    · rw [hx]; exact le_trans h.1 (min_le_right a y)
    · exact h.2 x hx

theorem foldl_max_mem (xs : List ℚ) (a : ℚ) : xs.foldl max a = a ∨ xs.foldl max a ∈ xs := by
  induction xs generalizing a with
  | nil => simp
  | cons y ys ih =>
    rcases ih (max a y) with h | h
    · rcases max_cases a y with ⟨h1, _⟩ | ⟨h1, _⟩
      · left; simpa [h1] using h
      · right; simp only [List.foldl_cons, h]; simp [h1]
    · right; simp [List.foldl_cons, h]

theorem foldl_max_ge (xs : List ℚ) (a : ℚ) :
    a ≤ xs.foldl max a ∧ ∀ x ∈ xs, x ≤ xs.foldl max a := by
  induction xs generalizing a with
  | nil => simp
  | cons y ys ih =>
    simp only [List.foldl_cons]
    have h := ih (max a y)
    refine ⟨le_trans (le_max_left a y) h.1, ?_⟩
    intro x hx
    rcases List.mem_cons.mp hx with hx | hx
    · rw [hx]; exact le_trans (le_max_right a y) h.1
    · exact h.2 x hx

theorem listMin_mem (l : List ℚ) (h : l ≠ []) : listMin l ∈ l := by
  cases l with
  | nil => exact absurd rfl h
  | cons x xs =>
    rcases foldl_min_mem xs x with h1 | h1
    · simp [listMin, h1]
    · simp [listMin, h1]

theorem listMin_le (l : List ℚ) : ∀ x ∈ l, listMin l ≤ x := by
  cases l with
  | nil => simp
  | cons x xs =>
    intro y hy
    rcases List.mem_cons.mp hy with hy | hy
    · rw [hy]; exact (foldl_min_le xs x).1
    · exact (foldl_min_le xs x).2 y hy

theorem listMax_mem (l : List ℚ) (h : l ≠ []) : listMax l ∈ l := by
  cases l with
  | nil => exact absurd rfl h
  | cons x xs =>
    rcases foldl_max_mem xs x with h1 | h1
    · simp [listMax, h1]
    · simp [listMax, h1]

theorem listMax_ge (l : List ℚ) : ∀ x ∈ l, x ≤ listMax l := by
  cases l with
  | nil => simp
  | cons x xs =>
    intro y hy
    rcases List.mem_cons.mp hy with hy | hy
    · rw [hy]; exact (foldl_max_ge xs x).1
    · exact (foldl_max_ge xs x).2 y hy

/-- Semantics of numpy `argmin` over a 1-D array: the lowest index whose
element is less than or equal to every element of the array, i.e. the first
occurrence of the minimum in array order. -/
def np_argmin (l : List ℚ) : Nat :=
  l.findIdx fun x => l.all fun y => decide (x ≤ y)

/-- Embedding of `Satellite.get_index_of_closest_float_value`
(`src/libs/satellite.py` lines 253-257):
`abs((self.nc.variables[variable_name] - np.float32(value))).argmin()`.
The coordinate array is the list `arr`; the `np.float32` narrowing of the
query is the identity in this rational model. -/
def get_index_of_closest_float_value (arr : List ℚ) (value : ℚ) : Nat :=
  np_argmin (arr.map fun x => |x - value|)

theorem np_argmin_lt_length (l : List ℚ) (h : l ≠ []) : np_argmin l < l.length := by
  apply List.findIdx_lt_length_of_exists
  refine ⟨listMin l, listMin_mem l h, ?_⟩
  simp only [List.all_eq_true, decide_eq_true_eq]
  exact listMin_le l

theorem np_argmin_le_all (l : List ℚ) (h : l ≠ []) :
    ∀ i, i < l.length → l.getD (np_argmin l) 0 ≤ l.getD i 0 := by
  intro i hi
  have hk : np_argmin l < l.length := np_argmin_lt_length l h
  have hp := List.findIdx_getElem (p := fun x => l.all fun y => decide (x ≤ y)) (w := hk)
  simp only [List.all_eq_true, decide_eq_true_eq] at hp
  rw [List.getD_eq_getElem l 0 hk, List.getD_eq_getElem l 0 hi]
  exact hp _ (List.getElem_mem hi)

theorem np_argmin_first (l : List ℚ) (h : l ≠ []) :
    ∀ i, i < np_argmin l → l.getD (np_argmin l) 0 < l.getD i 0 := by
  intro i hik
  have hk : np_argmin l < l.length := np_argmin_lt_length l h
  have hi : i < l.length := lt_trans hik hk
  have hnp := List.not_of_lt_findIdx (p := fun x => l.all fun y => decide (x ≤ y)) hik
  simp only [List.all_eq_false, decide_eq_true_eq] at hnp
  obtain ⟨y, hy, hlt⟩ := hnp
  rw [List.getD_eq_getElem l 0 hk, List.getD_eq_getElem l 0 hi]
  calc l[np_argmin l] ≤ y := by
        have := np_argmin_le_all l h
        obtain ⟨jy, hjy, rfl⟩ := List.getElem_of_mem hy
        have h2 := this jy hjy
        rwa [List.getD_eq_getElem l 0 hk, List.getD_eq_getElem l 0 hjy] at h2
    _ < l[i] := lt_of_not_le hlt

theorem getD_map_abs (arr : List ℚ) (v : ℚ) (j : Nat) (hj : j < arr.length) :
    (arr.map fun x => |x - v|).getD j 0 = |arr.getD j 0 - v| := by
  rw [List.getD_eq_getElem _ _ (by simpa using hj), List.getElem_map,
    List.getD_eq_getElem _ _ hj]

/-- C3: the nearest-index search `get_index_of_closest_float_value` returns
the index minimizing the absolute difference between the array elements and
the query value; when several indices attain the minimum it returns the
lowest such index (every strictly earlier index has a strictly larger
absolute difference); and on the array `[1.0, 2.0, 2.0, 3.0]` with query
`2.0` the result is index 1. -/
theorem c3_nearest_index_argmin (arr : List ℚ) (v : ℚ) (h : arr ≠ []) :
    get_index_of_closest_float_value arr v < arr.length
    ∧ (∀ i, i < arr.length →
        |arr.getD (get_index_of_closest_float_value arr v) 0 - v| ≤ |arr.getD i 0 - v|)
    ∧ (∀ i, i < get_index_of_closest_float_value arr v →
        |arr.getD (get_index_of_closest_float_value arr v) 0 - v| < |arr.getD i 0 - v|)
    ∧ get_index_of_closest_float_value [1, 2, 2, 3] 2 = 1 := by
  have hl : arr.map (fun x => |x - v|) ≠ [] := by
    simpa using h
  have hlen : (arr.map fun x => |x - v|).length = arr.length := List.length_map arr _
  have hk : np_argmin (arr.map fun x => |x - v|) < arr.length := by
    have := np_argmin_lt_length _ hl
    rwa [hlen] at this
  have hex : |arr.getD (get_index_of_closest_float_value arr v) 0 - v|
      = (arr.map fun x => |x - v|).getD (np_argmin (arr.map fun x => |x - v|)) 0 := by
    rw [getD_map_abs arr v _ hk]
    rfl
  refine ⟨hk, ?_, ?_, by
    norm_num [get_index_of_closest_float_value, np_argmin, List.findIdx_cons,
      List.all_cons]⟩
  · intro i hi
    have h2 := np_argmin_le_all _ hl i (by rwa [hlen])
    rw [hex]
    rwa [getD_map_abs arr v i hi] at h2
  · intro i hik
    have hik2 : i < np_argmin (arr.map fun x => |x - v|) := hik
    have hi : i < arr.length := lt_trans hik2 hk
    have h2 := np_argmin_first _ hl i hik2
    rw [hex]
    rwa [getD_map_abs arr v i hi] at h2

theorem c3_nearest_index_argmin_witness :
    ([1, 2, 2, 3] : List ℚ) ≠ []
    ∧ get_index_of_closest_float_value [1, 2, 2, 3] 2 < 4 :=
  ⟨by decide, by
    have h := (c3_nearest_index_argmin [1, 2, 2, 3] 2 (by decide)).1
    simpa using h⟩

/-- The grid file as the code reads it through `netCDF4.Dataset`: 1-D
cell-center coordinate arrays `lat` and `lon`, the per-axis resolutions
published as the attributes `geospatial_lat_resolution` and
`geospatial_lon_resolution`, the scalar `time[0]` (seconds since
1981-01-01), the `analysed_sst[0]` value grid with its missing-value mask,
and the `mask[0]` land/sea integer grid. -/
structure Grid where
  lats : List ℚ
  lons : List ℚ
  latRes : ℚ
  lonRes : ℚ
  timeSecs : ℤ
  sst : List (List ℚ)
  sstMask : List (List Bool)
  landSea : List (List Nat)
  deriving DecidableEq, Repr

/-- Embedding of `Satellite.get_lat_lon_ranges` (`src/libs/satellite.py`
lines 296-317): the min/max of each 1-D coordinate array, expanded by half
a cell resolution on each side. -/
def get_lat_lon_ranges (g : Grid) : (ℚ × ℚ) × (ℚ × ℚ) :=
  ((listMin g.lats - g.latRes / 2, listMax g.lats + g.latRes / 2),
   (listMin g.lons - g.lonRes / 2, listMax g.lons + g.lonRes / 2))

/-- Embedding of `Satellite.get_closest_lat_lon_indexes`
(`src/libs/satellite.py` lines 169-202): validate both coordinates against
the edge-expanded ranges, raising `SatDataException` with the axis name, the
value and the range, then run the two independent 1-D nearest searches. -/
def get_closest_lat_lon_indexes (g : Grid) (lat lon : ℚ) :
    Except PyError (Nat × Nat) :=
  let r := get_lat_lon_ranges g
  if ¬(r.1.1 ≤ lat ∧ lat ≤ r.1.2) then
    .error (.rangeErr "Latitude" lat r.1.1 r.1.2)
  else if ¬(r.2.1 ≤ lon ∧ lon ≤ r.2.2) then
    .error (.rangeErr "Longitude" lon r.2.1 r.2.2)
  else
    .ok (get_index_of_closest_float_value g.lats lat,
         get_index_of_closest_float_value g.lons lon)

/-- C2: locating the nearest cell first computes the covered ranges as the
cell-center extremes expanded outward by half a cell resolution per side
(the range endpoints, shifted back by the half-cell edge, are members of and
bounds for the coordinate arrays), raises a range error carrying the
offending axis, the offending value and the valid range exactly when a
coordinate falls outside its expanded range (latitude checked first), and
returns indexes (never reaching the nearest-index search) only when both
coordinates are in range. -/
theorem c2_range_validation (g : Grid) (lat lon : ℚ)
    (hla : g.lats ≠ []) (hlo : g.lons ≠ []) :
    (((get_lat_lon_ranges g).1.1 + g.latRes / 2 ∈ g.lats
        ∧ ∀ x ∈ g.lats, (get_lat_lon_ranges g).1.1 + g.latRes / 2 ≤ x)
      ∧ ((get_lat_lon_ranges g).1.2 - g.latRes / 2 ∈ g.lats
        ∧ ∀ x ∈ g.lats, x ≤ (get_lat_lon_ranges g).1.2 - g.latRes / 2)
      ∧ ((get_lat_lon_ranges g).2.1 + g.lonRes / 2 ∈ g.lons
        ∧ ∀ x ∈ g.lons, (get_lat_lon_ranges g).2.1 + g.lonRes / 2 ≤ x)
      ∧ ((get_lat_lon_ranges g).2.2 - g.lonRes / 2 ∈ g.lons
        ∧ ∀ x ∈ g.lons, x ≤ (get_lat_lon_ranges g).2.2 - g.lonRes / 2))
    ∧ (¬((get_lat_lon_ranges g).1.1 ≤ lat ∧ lat ≤ (get_lat_lon_ranges g).1.2) →
        get_closest_lat_lon_indexes g lat lon =
          .error (.rangeErr "Latitude" lat (get_lat_lon_ranges g).1.1
            (get_lat_lon_ranges g).1.2))
    ∧ (((get_lat_lon_ranges g).1.1 ≤ lat ∧ lat ≤ (get_lat_lon_ranges g).1.2) →
        ¬((get_lat_lon_ranges g).2.1 ≤ lon ∧ lon ≤ (get_lat_lon_ranges g).2.2) →
        get_closest_lat_lon_indexes g lat lon =
          .error (.rangeErr "Longitude" lon (get_lat_lon_ranges g).2.1
            (get_lat_lon_ranges g).2.2))
    ∧ ((∃ p, get_closest_lat_lon_indexes g lat lon = .ok p) ↔
        (((get_lat_lon_ranges g).1.1 ≤ lat ∧ lat ≤ (get_lat_lon_ranges g).1.2)
          ∧ ((get_lat_lon_ranges g).2.1 ≤ lon ∧ lon ≤ (get_lat_lon_ranges g).2.2))) := by
  refine ⟨⟨?_, ?_, ?_, ?_⟩, ?_, ?_, ?_⟩
  · exact ⟨by simpa [get_lat_lon_ranges] using listMin_mem g.lats hla,
      fun x hx => by simpa [get_lat_lon_ranges] using listMin_le g.lats x hx⟩
  · exact ⟨by simpa [get_lat_lon_ranges] using listMax_mem g.lats hla,
      fun x hx => by simpa [get_lat_lon_ranges] using listMax_ge g.lats x hx⟩
  · exact ⟨by simpa [get_lat_lon_ranges] using listMin_mem g.lons hlo,
      fun x hx => by simpa [get_lat_lon_ranges] using listMin_le g.lons x hx⟩
  · exact ⟨by simpa [get_lat_lon_ranges] using listMax_mem g.lons hlo,
      fun x hx => by simpa [get_lat_lon_ranges] using listMax_ge g.lons x hx⟩
  · intro hout
    simp [get_closest_lat_lon_indexes, hout]
  · intro hin hout
    simp [get_closest_lat_lon_indexes, hin, hout]
  · constructor
    · rintro ⟨p, hp⟩
      by_cases h1 : ((get_lat_lon_ranges g).1.1 ≤ lat ∧ lat ≤ (get_lat_lon_ranges g).1.2)
      · by_cases h2 : ((get_lat_lon_ranges g).2.1 ≤ lon ∧ lon ≤ (get_lat_lon_ranges g).2.2)
        · exact ⟨h1, h2⟩
        · simp [get_closest_lat_lon_indexes, h1, h2] at hp
      · simp [get_closest_lat_lon_indexes, h1] at hp
    · rintro ⟨h1, h2⟩
      refine ⟨(get_index_of_closest_float_value g.lats lat,
        get_index_of_closest_float_value g.lons lon), ?_⟩
      simp [get_closest_lat_lon_indexes, h1, h2]

/-- Latitude-axis region mask of `get_analysed_sst_smooth`
(`src/libs/satellite.py` line 276):
`(lat[:] >= lat-delta_lat) & (lat[:] <= lat+delta_lat)` — inclusive bounds. -/
def lat_mask (g : Grid) (clat dLat : ℚ) (i : Nat) : Bool :=
  decide (g.lats.getD i 0 ≥ clat - dLat) && decide (g.lats.getD i 0 ≤ clat + dLat)

/-- Longitude-axis region mask (`src/libs/satellite.py` line 277):
`(lon[:] > lon-delta_lon) & (lon[:] < lon+delta_lon)` — strict bounds. -/
def lon_mask (g : Grid) (clon dLon : ℚ) (j : Nat) : Bool :=
  decide (g.lons.getD j 0 > clon - dLon) && decide (g.lons.getD j 0 < clon + dLon)

/-- Outer AND of the two axis masks (`src/libs/satellite.py` line 280, the
`[i&j for i in lat_mask for j in lon_mask]` reshape). -/
def lat_lon_mask (g : Grid) (clat clon dLat dLon : ℚ) (i j : Nat) : Bool :=
  lat_mask g clat dLat i && lon_mask g clon dLon j

/-- Water mask (`src/libs/satellite.py` line 284):
`np.array(self.nc.variables[<land sea>][0] & 1, dtype=bool)`. -/
def sea_mask (g : Grid) (i j : Nat) : Bool :=
  (cellN g.landSea i j &&& 1) != 0

/-- Region-and-water mask (`src/libs/satellite.py` line 287). -/
def resulting_mask (g : Grid) (clat clon dLat dLon : ℚ) (i j : Nat) : Bool :=
  lat_lon_mask g clat clon dLat dLon i j && sea_mask g i j

/-- The mask of the `analysed_sst` data after line 293,
`data.mask = ~resulting_mask | data.mask`; a cell contributes to the mean
iff this final mask is false. -/
def smooth_final_mask (g : Grid) (clat clon dLat dLon : ℚ) (i j : Nat) : Bool :=
  !(resulting_mask g clat clon dLat dLon i j) || cellB g.sstMask i j

/-- All index pairs of the 2-D grid, row-major as numpy stores them. -/
def gridIdx (g : Grid) : List (Nat × Nat) :=
  (List.range g.lats.length).flatMap fun i =>
    (List.range g.lons.length).map fun j => (i, j)

/-- The cells whose final mask is false, i.e. the cells over which
`data.mean()` averages in `get_analysed_sst_smooth`. -/
def includedCells (g : Grid) (clat clon dLat dLon : ℚ) : List (Nat × Nat) :=
  (gridIdx g).filter fun p => !(smooth_final_mask g clat clon dLat dLon p.1 p.2)

/-- Embedding of `Satellite.get_analysed_sst_smooth`
(`src/libs/satellite.py` lines 259-294): the masked mean of
`analysed_sst[0]` over the unmasked cells.  `ma.mean()` of a fully masked
array is the `masked` constant, embedded as `none`.  The radius-to-degree
deltas come from the `coordinatehelper` module which is not part of the
repository (per the spec: `deltaLat = km / 111`,
`deltaLon = km / (111 * cos lat)`); the averaging is embedded over
arbitrary `dLat`/`dLon` arguments, which covers the deltas of every
radius. -/
def get_analysed_sst_smooth (g : Grid) (clat clon dLat dLon : ℚ) : Option ℚ :=
  let cs := includedCells g clat clon dLat dLon
  if cs.isEmpty then none
  else some ((cs.map fun p => cellR g.sst p.1 p.2).sum / cs.length)

/-- Inclusion predicate as the claim words it: latitude within `dLat`
inclusively, longitude strictly within `dLon`, bit 0 of the land/sea mask
set, and the missing-value mask false.  This is the spec-side definition
to be compared with the source-side masks above. -/
def specIncludedCell (g : Grid) (clat clon dLat dLon : ℚ) (i j : Nat) : Prop :=
  |g.lats.getD i 0 - clat| ≤ dLat
  ∧ clon - dLon < g.lons.getD j 0
  ∧ g.lons.getD j 0 < clon + dLon
  ∧ (cellN g.landSea i j).testBit 0
  ∧ cellB g.sstMask i j = false

instance specIncludedCell_decidable (g : Grid) (clat clon dLat dLon : ℚ)
    (i j : Nat) : Decidable (specIncludedCell g clat clon dLat dLon i j) := by
  unfold specIncludedCell
  infer_instance

/-- Cells qualifying per the spec wording. -/
def specCells (g : Grid) (clat clon dLat dLon : ℚ) : List (Nat × Nat) :=
  (gridIdx g).filter fun p => decide (specIncludedCell g clat clon dLat dLon p.1 p.2)

/-- Spatial average as the spec words it: arithmetic mean over exactly the
qualifying cells, undefined when no cell qualifies. -/
def specAverage (g : Grid) (clat clon dLat dLon : ℚ) : Option ℚ :=
  let cs := specCells g clat clon dLat dLon
  if cs.isEmpty then none
  else some ((cs.map fun p => cellR g.sst p.1 p.2).sum / cs.length)

theorem smooth_final_mask_false_iff (g : Grid) (clat clon dLat dLon : ℚ) (i j : Nat) :
    (!(smooth_final_mask g clat clon dLat dLon i j)) = true ↔
      specIncludedCell g clat clon dLat dLon i j := by
  simp only [smooth_final_mask, resulting_mask, lat_lon_mask, lat_mask, lon_mask,
    sea_mask, specIncludedCell, Bool.not_or, Bool.not_not, Bool.and_eq_true,
    Bool.not_eq_true', decide_eq_true_eq, bne_iff_ne, ne_eq, ge_iff_le, gt_iff_lt]
  constructor
  · rintro ⟨⟨⟨⟨h1, h2⟩, h3, h4⟩, h5⟩, h6⟩
    refine ⟨abs_sub_le_iff.mpr ⟨by linarith, by linarith⟩, by linarith, by linarith, ?_, h6⟩
    rw [Nat.testBit_zero]
    rw [Nat.and_one_is_mod] at h5
    simp only [decide_eq_true_eq]
    omega
  · rintro ⟨h1, h3, h4, h5, h6⟩
    obtain ⟨ha, hb⟩ := abs_sub_le_iff.mp h1
    rw [Nat.testBit_zero] at h5
    simp only [decide_eq_true_eq] at h5
    refine ⟨⟨⟨⟨by linarith, by linarith⟩, by linarith, by linarith⟩, ?_⟩, h6⟩
    rw [Nat.and_one_is_mod]
    omega

theorem includedCells_eq_specCells (g : Grid) (clat clon dLat dLon : ℚ) :
    includedCells g clat clon dLat dLon = specCells g clat clon dLat dLon := by
  unfold includedCells specCells
  apply List.filter_congr
  intro p _
  have h := smooth_final_mask_false_iff g clat clon dLat dLon p.1 p.2
  by_cases hm : specIncludedCell g clat clon dLat dLon p.1 p.2
  · simp [h.mpr hm, hm]
  · simp only [decide_eq_false hm]
    by_contra hne
    exact hm (h.mp (by revert hne; cases (!(smooth_final_mask g clat clon dLat dLon p.1 p.2)) <;> simp))

theorem smooth_eq_specAverage (g : Grid) (clat clon dLat dLon : ℚ) :
    get_analysed_sst_smooth g clat clon dLat dLon = specAverage g clat clon dLat dLon := by
  unfold get_analysed_sst_smooth specAverage
  rw [includedCells_eq_specCells]

theorem mem_gridIdx (g : Grid) (i j : Nat) :
    (i, j) ∈ gridIdx g ↔ i < g.lats.length ∧ j < g.lons.length := by
  simp [gridIdx, List.mem_flatMap, List.mem_map, List.mem_range]

/-- C1: a cell `(i, j)` contributes to the spatial average iff its latitude
is within `deltaLat` of the center with inclusive bounds, its longitude is
strictly within `deltaLon` of the center with exclusive bounds, bit 0 of
the land/sea mask at that cell is set, and the missing-value mask of the
variable at that cell is false; and the result is the arithmetic mean of
the variable over exactly these cells (undefined when there are none). -/
theorem c1_smooth_region_semantics (g : Grid) (clat clon dLat dLon : ℚ) :
    (∀ i j, i < g.lats.length → j < g.lons.length →
      ((i, j) ∈ includedCells g clat clon dLat dLon ↔
        specIncludedCell g clat clon dLat dLon i j))
    ∧ get_analysed_sst_smooth g clat clon dLat dLon
        = specAverage g clat clon dLat dLon := by
  refine ⟨?_, smooth_eq_specAverage g clat clon dLat dLon⟩
  intro i j hi hj
  rw [includedCells_eq_specCells]
  unfold specCells
  rw [List.mem_filter]
  simp only [decide_eq_true_eq]
  constructor
  · exact fun h => h.2
  · exact fun h => ⟨(mem_gridIdx g i j).mpr ⟨hi, hj⟩, h⟩

/-- A small concrete all-water grid used as a witness input. -/
def gridWater : Grid :=
  { lats := [0, 1], lons := [0, 1], latRes := 1, lonRes := 1, timeSecs := 0,
    sst := [[10, 11], [12, 13]],
    sstMask := [[false, false], [false, false]],
    landSea := [[1, 1], [1, 1]] }

theorem c1_smooth_region_semantics_witness :
    (0 < gridWater.lats.length ∧ 0 < gridWater.lons.length)
    ∧ ((0, 0) ∈ includedCells gridWater 0 0 1 1 ↔
        specIncludedCell gridWater 0 0 1 1 0 0) :=
  ⟨⟨by simp [gridWater], by simp [gridWater]⟩,
    (c1_smooth_region_semantics gridWater 0 0 1 1).1 0 0
      (by simp [gridWater]) (by simp [gridWater])⟩

/-- C4: when no cell qualifies for inclusion, the spatial average is the
undefined/masked value `none`, which is distinct from every legitimate
numeric mean, in particular from a mean of `0`; the computation is total
(it does not raise). -/
theorem c4_empty_mean_undefined (g : Grid) (clat clon dLat dLon : ℚ)
    (h : ∀ i j, i < g.lats.length → j < g.lons.length →
      ¬ specIncludedCell g clat clon dLat dLon i j) :
    get_analysed_sst_smooth g clat clon dLat dLon = none
    ∧ ∀ q : ℚ, get_analysed_sst_smooth g clat clon dLat dLon ≠ some q := by
  have hcs : specCells g clat clon dLat dLon = [] := by
    rw [List.eq_nil_iff_forall_not_mem]
    rintro ⟨i, j⟩ hmem
    rw [specCells, List.mem_filter] at hmem
    have hb := (mem_gridIdx g i j).mp hmem.1
    exact h i j hb.1 hb.2 (by simpa using hmem.2)
  have h1 : get_analysed_sst_smooth g clat clon dLat dLon = none := by
    rw [smooth_eq_specAverage]
    unfold specAverage
    rw [hcs]
    simp
  exact ⟨h1, by simp [h1]⟩

/-- A small concrete all-land grid (land/sea bit 0 clear everywhere). -/
def gridLand : Grid :=
  { lats := [0], lons := [0], latRes := 1, lonRes := 1, timeSecs := 0,
    sst := [[5]], sstMask := [[false]], landSea := [[0]] }

theorem c4_empty_mean_undefined_witness :
    (∀ i j, i < gridLand.lats.length → j < gridLand.lons.length →
      ¬ specIncludedCell gridLand 0 0 1 1 i j)
    ∧ get_analysed_sst_smooth gridLand 0 0 1 1 = none :=
  have h : ∀ i j, i < gridLand.lats.length → j < gridLand.lons.length →
      ¬ specIncludedCell gridLand 0 0 1 1 i j := by
    intro i j hi hj
    simp only [gridLand, List.length_singleton] at hi hj
    have hi0 : i = 0 := by omega
    have hj0 : j = 0 := by omega
    subst hi0; subst hj0
    simp [specIncludedCell, cellN, gridLand]
  ⟨h, (c4_empty_mean_undefined gridLand 0 0 1 1 h).1⟩

/-- Constant from `src/libs/satellite.py` line 15 (source spelling kept). -/
def ZERO_CELCIUS_IN_KELVIN : ℚ := 27315 / 100

/-- Decimal digits of a proper fraction `n / d`, most significant first,
with a fuel bound (terminating decimals of the small grids used here fit
comfortably; Python float repr is finite as well). -/
def fracDigits : Nat → Nat → Nat → String
  | 0, _, _ => ""
  | _ + 1, 0, _ => ""
  | fuel + 1, n, d =>
    let n10 := n * 10
    toString (n10 / d) ++ fracDigits fuel (n10 % d) d

/-- Modelled from the spec: the generic value-to-text formatter of the
missing `filterhelper` module (and Python `str()` on float scalars), which
renders a float like `55.0` as the text `55.0` — integer part, point,
fraction digits with at least one digit. -/
def pyFloatStr (q : ℚ) : String :=
  let s := if q < 0 then "-" else ""
  let n := q.num.natAbs
  let d := q.den
  let ip := n / d
  let fp := n % d
  let fs := if fp = 0 then "0" else fracDigits 30 fp d
  s ++ toString ip ++ "." ++ fs

/-- Modelled from the spec: rendering of a timestamp value by the missing
`datetimehelper` module; the spec fixes only that it is some text form of
the epoch-offset timestamp, so the offset itself is rendered. -/
def pyTimeStr (secs : ℤ) : String :=
  "1981-01-01T00:00:00 offset " ++ toString secs

/-- Modelled from the spec: Python `str()` / the generic formatter applied
to a record value; a masked value prints as the numpy masked placeholder. -/
def pyStr : PyVal → String
  | .num q => pyFloatStr q
  | .timeVal t => pyTimeStr t
  | .str s => s
  | .missing => "--"

/-- The variables of the grid file (`nc.variables` of the modelled file
schema): the two coordinate axes, the time scalar, the analysed
sea-surface temperature and the land/sea mask variable. -/
def nc_variables : List String :=
  ["lat", "lon", "time", "analysed_sst", "mask"]

/-- Embedding of `Satellite.get_variable_names` (`src/libs/satellite.py`
lines 319-326): the file variables with the synthetic
`analysed_sst_smooth` appended (the code returns them as a set; the
membership facts proved below do not depend on the order). -/
def get_variable_names : List String :=
  nc_variables ++ ["analysed_sst_smooth"]

/-- Per-variable value resolution of `Satellite.data`
(`src/libs/satellite.py` lines 217-236): `lat` from the latitude array at
the latitude index, `lon` from the longitude array at the longitude index,
`time` as the epoch offset, `analysed_sst` read at
`[0][lat_index][lon_index]` and converted to Celsius, the smoothed
variable via the spatial average (masked result stays masked), and every
other file variable — including the land/sea `mask` variable — read plainly
at `[0][lat_index][lon_index]`. -/
def resolveVar (g : Grid) (li lj : Nat) (clat clon dLat dLon : ℚ) :
    String → PyVal
  | "lat" => .num (g.lats.getD li 0)
  | "lon" => .num (g.lons.getD lj 0)
  | "time" => .timeVal g.timeSecs
  | "analysed_sst" =>
      if cellB g.sstMask li lj then .missing
      else .num (cellR g.sst li lj - ZERO_CELCIUS_IN_KELVIN)
  | "analysed_sst_smooth" =>
      match get_analysed_sst_smooth g clat clon dLat dLon with
      | none => .missing
      | some q => .num (q - ZERO_CELCIUS_IN_KELVIN)
  | "mask" => .num (cellN g.landSea li lj)
  | _ => .missing

/-- Embedding of `Satellite.data` (`src/libs/satellite.py` lines 204-239):
locate the nearest cell (propagating a range failure unchanged), then
populate the data point with every variable name from
`get_variable_names`.  The radius-to-degree deltas of the smoothed
variable are again explicit arguments (external `coordinatehelper`). -/
def Satellite_data (g : Grid) (clat clon dLat dLon : ℚ) :
    Except PyError (List (String × PyVal)) := do
  let p ← get_closest_lat_lon_indexes g clat clon
  .ok (get_variable_names.map fun n => (n, resolveVar g p.1 p.2 clat clon dLat dLon n))

/-- Key list of a returned data point (empty on a raised error). -/
def recordKeys : Except PyError (List (String × PyVal)) → List String
  | .ok r => r.map Prod.fst
  | .error _ => []

/-- Value of a field of a returned data point. -/
def recordField (e : Except PyError (List (String × PyVal))) (k : String) :
    Option PyVal :=
  match e with
  | .error _ => none
  | .ok r => (r.find? fun p => p.1 == k).map Prod.snd

/-- Embedding of the script-level `get_lat_lon_ranges`
(`src/print_sat_data.py` lines 41-51): plain min/max of the coordinate
arrays, without the half-cell edge expansion (the script marks this with a
`TODO: Missing the edges!!`). -/
def pgv_get_lat_lon_ranges (g : Grid) : (ℚ × ℚ) × (ℚ × ℚ) :=
  ((listMin g.lats, listMax g.lats), (listMin g.lons, listMax g.lons))

/-- Embedding of the script-level `get_closest_lat_lon_indexes`
(`src/print_sat_data.py` lines 92-130). -/
def pgv_get_closest_lat_lon_indexes (g : Grid) (lat lon : ℚ) :
    Except PyError (Nat × Nat) :=
  let r := pgv_get_lat_lon_ranges g
  if ¬(r.1.1 ≤ lat ∧ lat ≤ r.1.2) then
    .error (.rangeErr "Latitude" lat r.1.1 r.1.2)
  else if ¬(r.2.1 ≤ lon ∧ lon ≤ r.2.2) then
    .error (.rangeErr "Longitude" lon r.2.1 r.2.2)
  else
    .ok (get_index_of_closest_float_value g.lats lat,
         get_index_of_closest_float_value g.lons lon)

/-- Per-variable item of the script-level `get_values`
(`src/print_sat_data.py` lines 156-170).  Line 161 reads the longitude
array at `lat_index`: `items_to_print.append(nc.variables[<lon>][lat_index])`
— this embedding preserves that read faithfully.  Other variables are read
at `[0][lat_index][lon_index]` with their mask. -/
def pgv_item (g : Grid) (li lj : Nat) : String → PyVal
  | "lat" => .num (g.lats.getD li 0)
  | "lon" => .num (g.lons.getD li 0)
  | "time" => .timeVal g.timeSecs
  | "analysed_sst" =>
      if cellB g.sstMask li lj then .missing else .num (cellR g.sst li lj)
  | "mask" => .num (cellN g.landSea li lj)
  | _ => .missing

/-- Embedding of the script-level `get_values`
(`src/print_sat_data.py` lines 132-187): locate indexes, build the items,
and if any non-coordinate item was masked and the `ignore_missing` flag is
set, return `None` (as the code is written) instead of the formatted
items. -/
def get_values (g : Grid) (lat lon : ℚ) (variables_to_print : List String)
    (ignore_missing : Bool) : Except PyError (Option (List String)) := do
  let p ← pgv_get_closest_lat_lon_indexes g lat lon
  let items := variables_to_print.map (pgv_item g p.1 p.2)
  if (items.any fun v => v == PyVal.missing) && ignore_missing then
    .ok none
  else
    .ok (some (items.map pyStr))

theorem c2_range_validation_witness :
    (gridWater.lats ≠ [] ∧ gridWater.lons ≠ [])
    ∧ get_closest_lat_lon_indexes gridWater 50 0 =
        .error (.rangeErr "Latitude" 50 (-1/2) (3/2)) := by
  have hr : get_lat_lon_ranges gridWater = ((-1/2, 3/2), (-1/2, 3/2)) := by
    norm_num [get_lat_lon_ranges, listMin, listMax, gridWater]
  have h := (c2_range_validation gridWater 50 0 (by simp [gridWater])
    (by simp [gridWater])).2.1
  rw [hr] at h
  exact ⟨⟨by simp [gridWater], by simp [gridWater]⟩, by simpa using h (by norm_num)⟩

/-- Concrete grid exhibiting the longitude-index slip of the script-level
`get_values`: distinct latitude and longitude indexes are located so the
two reads differ. -/
def gridC5 : Grid :=
  { lats := [10, 20], lons := [30, 40], latRes := 1, lonRes := 1, timeSecs := 0,
    sst := [[1, 2], [3, 4]],
    sstMask := [[false, false], [false, false]],
    landSea := [[1, 1], [1, 1]] }

theorem gridC5_lat_index : get_index_of_closest_float_value [10, 20] 20 = 1 := by
  norm_num [get_index_of_closest_float_value, np_argmin, List.findIdx_cons,
    List.all_cons]

theorem gridC5_lon_index : get_index_of_closest_float_value [30, 40] 30 = 0 := by
  norm_num [get_index_of_closest_float_value, np_argmin, List.findIdx_cons,
    List.all_cons]

/-- C5 (failing evaluation): at the query (20, 30) on `gridC5` the located
indexes are latitude 1, longitude 0; the script-level `get_values` renders
the `lon` field from the longitude array at the *latitude* index (value
40.0), not at the longitude index (value 30.0), while the library-level
`Satellite.data` resolves `lat` and `lon` each from its own axis index. -/
theorem c5_lon_resolved_at_lat_index :
    get_values gridC5 20 30 ["lat", "lon"] false = .ok (some ["20.0", "40.0"])
    ∧ pyFloatStr (gridC5.lons.getD 0 0) = "30.0"
    ∧ recordField (Satellite_data gridC5 20 30 1 1) "lon" = some (.num 30)
    ∧ recordField (Satellite_data gridC5 20 30 1 1) "lat" = some (.num 20) := by
  have hcl : pgv_get_closest_lat_lon_indexes gridC5 20 30 = .ok (1, 0) := by
    norm_num [pgv_get_closest_lat_lon_indexes, pgv_get_lat_lon_ranges, listMin,
      listMax, gridC5, gridC5_lat_index, gridC5_lon_index]
  have hcs : get_closest_lat_lon_indexes gridC5 20 30 = .ok (1, 0) := by
    norm_num [get_closest_lat_lon_indexes, get_lat_lon_ranges, listMin,
      listMax, gridC5, gridC5_lat_index, gridC5_lon_index]
  refine ⟨?_, ?_, ?_, ?_⟩
  · simp only [get_values]
    rw [hcl]
    rfl
  · simp only [gridC5]
    rfl
  · simp only [recordField, Satellite_data]
    rw [hcs]
    rfl
  · simp only [recordField, Satellite_data]
    rw [hcs]
    rfl

/-- C9 (counterexample): the land/sea `mask` variable appears as a plain
key of the record returned by `Satellite.data` — the code iterates every
name from `get_variable_names`, which contains `mask`. -/
theorem c9_counterexample_mask_in_record :
    "mask" ∈ recordKeys (Satellite_data gridWater 0 0 1 1) := by
  have hi0 : get_index_of_closest_float_value [0, 1] 0 = 0 := by
    norm_num [get_index_of_closest_float_value, np_argmin, List.findIdx_cons,
      List.all_cons]
  have hcl : get_closest_lat_lon_indexes gridWater 0 0 = .ok (0, 0) := by
    norm_num [get_closest_lat_lon_indexes, get_lat_lon_ranges, listMin,
      listMax, gridWater, hi0]
  simp only [recordKeys, Satellite_data]
  rw [hcl]
  decide

/-- C9 (amended): the land/sea mask variable is read by every
spatial-averaging call (it is the `sea_mask` input), and it also appears as
a plain field of every successfully returned record, read at
`[0][lat_index][lon_index]` like any other file variable — the record keys
are exactly `get_variable_names`, which contains `mask`. -/
theorem c9_mask_is_plain_field (g : Grid) (clat clon dLat dLon : ℚ)
    (r : List (String × PyVal))
    (h : Satellite_data g clat clon dLat dLon = .ok r) :
    r.map Prod.fst = get_variable_names
    ∧ "mask" ∈ r.map Prod.fst
    ∧ (∀ p, get_closest_lat_lon_indexes g clat clon = .ok p →
        ("mask", PyVal.num (cellN g.landSea p.1 p.2)) ∈ r) := by
  unfold Satellite_data at h
  cases hcl : get_closest_lat_lon_indexes g clat clon with
  | error e =>
    rw [hcl] at h
    have h2 : (Except.error e : Except PyError (List (String × PyVal))) = .ok r := h
    exact Except.noConfusion h2
  | ok p =>
    rw [hcl] at h
    have h2 : Except.ok (get_variable_names.map fun n =>
        (n, resolveVar g p.1 p.2 clat clon dLat dLon n)) =
        (Except.ok r : Except PyError (List (String × PyVal))) := h
    injection h2 with h3
    subst h3
    refine ⟨by simp [Function.comp_def], by simp [get_variable_names, nc_variables], ?_⟩
    intro p2 hp2
    injection hp2 with h4
    subst h4
    simp only [List.mem_map]
    exact ⟨"mask", by simp [get_variable_names, nc_variables], by simp [resolveVar]⟩

theorem c9_mask_is_plain_field_witness :
    (Satellite_data gridWater 0 0 1 1 =
      .ok (get_variable_names.map fun n => (n, resolveVar gridWater 0 0 0 0 1 1 n)))
    ∧ "mask" ∈ ((get_variable_names.map fun n =>
        (n, resolveVar gridWater 0 0 0 0 1 1 n)).map Prod.fst) := by
  have hli : get_index_of_closest_float_value [0, 1] 0 = 0 := by
    norm_num [get_index_of_closest_float_value, np_argmin, List.findIdx_cons,
      List.all_cons]
  have hcl : get_closest_lat_lon_indexes gridWater 0 0 = .ok (0, 0) := by
    norm_num [get_closest_lat_lon_indexes, get_lat_lon_ranges, listMin,
      listMax, gridWater, hli]
  have h : Satellite_data gridWater 0 0 1 1 =
      .ok (get_variable_names.map fun n => (n, resolveVar gridWater 0 0 0 0 1 1 n)) := by
    simp only [Satellite_data]
    rw [hcl]
    rfl
  exact ⟨h, ((c9_mask_is_plain_field gridWater 0 0 1 1 _ h).2).1⟩

/-- Modelled from the spec: `datetimehelper.date2julian`, the Julian-date
rendering of a timestamp (the spec fixes only that a Julian number is
rendered). -/
def date2julian (secs : ℤ) : String := "julian " ++ toString secs

/-- Modelled from the spec: `datetimehelper.DEFAULT_DATE_FORMAT_MIN`, the
fixed default minute-resolution timestamp pattern. -/
def DEFAULT_DATE_FORMAT_MIN : String := "%Y-%m-%d %H:%M"

/-- Modelled from the spec: `value.strftime(pattern)` applied to the stored
timestamp; the spec fixes only that the pattern and timestamp determine the
text. -/
def strfRender (fmt : String) (secs : ℤ) : String :=
  fmt ++ " at offset " ++ toString secs

/-- Python `key.split(":", 1)` on a character list: the part before the
first colon, and the remainder when a colon exists. -/
def splitFirstColon : List Char → List Char × Option (List Char)
  | [] => ([], none)
  | c :: cs =>
    if c = ':' then ([], some cs)
    else
      let r := splitFirstColon cs
      (c :: r.1, r.2)

/-- Whether a filter key carries a `:`-separated format option. -/
def hasColon (k : String) : Bool := (splitFirstColon k.toList).2.isSome

/-- The `key, extra_filter_option = key.split(":", 1)` decomposition. -/
def splitColon (k : String) : String × String :=
  let r := splitFirstColon k.toList
  (String.mk r.1, String.mk (r.2.getD []))

/-- Python dictionary lookup `self.data[key]` as an association-list find. -/
def lookupKey (data : List (String × PyVal)) (k : String) : Option PyVal :=
  (data.find? fun p => p.1 == k).map Prod.snd

/-- One iteration of the `for key in order` loop of
`SatelliteDataPoint.filter` (`src/libs/satellite.py` lines 104-117).  The
Python local `extra_filter_option` persists across iterations and is only
reassigned when the current key contains a colon; referencing it before any
assignment raises `NameError` (the bare keys `time` and `dummy` read it).
A missing dictionary key raises `KeyError`; `strftime` on a non-timestamp
raises `AttributeError`. -/
def filterStep (data : List (String × PyVal)) (k : String)
    (extra : Option String) : Except PyError (PyVal × Option String) :=
  let ke := if hasColon k then ((splitColon k).1, some (splitColon k).2)
            else (k, extra)
  if ke.1 = "time" then
    match ke.2 with
    | none => .error .nameError
    | some e =>
      match lookupKey data "time" with
      | none => .error (.keyError "time")
      | some (.timeVal t) =>
        if e = "julian" then .ok (.str (date2julian t), ke.2)
        else if e ≠ "" then .ok (.str (strfRender e t), ke.2)
        else .ok (.str (strfRender DEFAULT_DATE_FORMAT_MIN t), ke.2)
      | some _ => .error .attributeError
  else if ke.1 = "dummy" then
    match ke.2 with
    | none => .error .nameError
    | some e => .ok (.str e, ke.2)
  else
    match lookupKey data ke.1 with
    | none => .error (.keyError ke.1)
    | some v => .ok (v, ke.2)

/-- The whole `for key in order` loop, threading `extra_filter_option` and
propagating the first raised exception. -/
def filterLoop (data : List (String × PyVal)) :
    List String → Option String → Except PyError (List PyVal)
  | [], _ => .ok []
  | k :: ks, extra =>
    match filterStep data k extra with
    | .error e => .error e
    | .ok r =>
      match filterLoop data ks r.2 with
      | .error e => .error e
      | .ok rest => .ok (r.1 :: rest)

/-- The no-filter branch of `filter` (lines 121-125): every stored value in
insertion order, the `time` key rendered with the default pattern. -/
def filterAllVals : List (String × PyVal) → Except PyError (List PyVal)
  | [] => .ok []
  | p :: ps =>
    match (if p.1 = "time" then
        match p.2 with
        | .timeVal t => Except.ok (PyVal.str (strfRender DEFAULT_DATE_FORMAT_MIN t))
        | _ => Except.error PyError.attributeError
      else Except.ok p.2) with
    | .error e => .error e
    | .ok v =>
      match filterAllVals ps with
      | .error e => .error e
      | .ok rest => .ok (v :: rest)

/-- Embedding of `SatelliteDataPoint.filter` (`src/libs/satellite.py` lines
83-131).  Lines 92-95 iterate over the stored data when
`ignore_point_if_missing` is set and evaluate `hasattr(variable, "mask")`:
`variable` is an undefined name there, so the first iteration raises
`NameError` and the `return None` on line 95 is unreachable.  Otherwise the
requested keys are rendered in order and the formatted values are
concatenated into the output string. -/
def SatelliteDataPoint_filter (data : List (String × PyVal))
    (order : Option (List String)) (ignore_point_if_missing : Bool) :
    Except PyError (Option String) :=
  if ignore_point_if_missing && !data.isEmpty then .error .nameError
  else
    match order with
    | some ks =>
      match filterLoop data ks none with
      | .error e => .error e
      | .ok vals => .ok (some (String.join (vals.map pyStr)))
    | none =>
      match filterAllVals data with
      | .error e => .error e
      | .ok vals => .ok (some (String.join (vals.map pyStr)))

/-- Stateless evaluation of a single filter key: what `filterStep` yields
when `extra_filter_option` has not been assigned yet.  Keys on which this
succeeds are evaluated independently of the loop state. -/
def evalKeyE (data : List (String × PyVal)) (k : String) :
    Except PyError PyVal :=
  match filterStep data k none with
  | .error e => .error e
  | .ok r => .ok r.1

/-- Value of a successful key evaluation (junk on an exception). -/
def valOf : Except PyError PyVal → PyVal
  | .ok v => v
  | .error _ => .missing

theorem mk_toList (s : String) : String.mk s.toList = s := by
  cases s
  rfl

theorem filterStep_stateless (data : List (String × PyVal)) (k : String)
    (v : PyVal) (hv : evalKeyE data k = .ok v) (extra : Option String) :
    ∃ st2, filterStep data k extra = .ok (v, st2) := by
  unfold evalKeyE at hv
  by_cases hc : hasColon k
  · have heq : filterStep data k extra = filterStep data k none := by
      unfold filterStep
      simp [hc]
    rw [heq]
    cases hs : filterStep data k none with
    | error e => rw [hs] at hv; exact absurd hv (by simp)
    | ok r =>
      obtain ⟨r1, r2⟩ := r
      rw [hs] at hv
      simp only [Except.ok.injEq] at hv
      exact ⟨r2, by rw [hv]⟩
  · unfold filterStep at hv ⊢
    simp only [hc, Bool.false_eq_true, if_false] at hv ⊢
    by_cases ht : k = "time"
    · simp [ht] at hv
    by_cases hd : k = "dummy"
    · simp [ht, hd] at hv
    cases hl : lookupKey data k with
    | none => simp [ht, hd, hl] at hv
    | some w =>
      simp only [ht, hd, hl, if_neg, if_false] at hv ⊢
      simp at hv
      exact ⟨extra, by simp [hv]⟩

theorem filterLoop_of_ok (data : List (String × PyVal)) :
    ∀ ks : List String, (∀ k ∈ ks, ∃ v, evalKeyE data k = .ok v) →
    ∀ extra, filterLoop data ks extra =
      .ok (ks.map fun k => valOf (evalKeyE data k)) := by
  intro ks
  induction ks with
  | nil => intro _ extra; rfl
  | cons k ks ih =>
    intro h extra
    obtain ⟨v, hv⟩ := h k (List.mem_cons_self k ks)
    obtain ⟨st2, hst⟩ := filterStep_stateless data k v hv extra
    have hrest := ih (fun k2 hk2 => h k2 (List.mem_cons_of_mem k hk2)) st2
    simp only [filterLoop]
    rw [hst]
    simp [hrest, valOf, hv]

/-- C8: projecting with an ordered field selection renders the fields in
exactly the order of the given keys — the output is the concatenation, in
key order, of each key's independently evaluated rendering — and a key
`dummy:<label>` never looks up stored data: its value is the literal
format-option string itself. -/
theorem c8_projection_order_and_dummy (data : List (String × PyVal))
    (ks : List String)
    (h : ∀ k ∈ ks, ∃ v, evalKeyE data k = .ok v) :
    SatelliteDataPoint_filter data (some ks) false =
      .ok (some (String.join (ks.map fun k => pyStr (valOf (evalKeyE data k)))))
    ∧ ∀ s : String, evalKeyE data (String.append "dummy:" s) = .ok (.str s) := by
  constructor
  · have hfl := filterLoop_of_ok data ks h none
    simp [SatelliteDataPoint_filter, hfl, List.map_map, Function.comp_def]
  · intro s
    have hdata : (String.append "dummy:" s).toList
        = 'd' :: 'u' :: 'm' :: 'm' :: 'y' :: ':' :: s.toList := by
      cases s
      rfl
    have hsplit : splitFirstColon (String.append "dummy:" s).toList
        = (['d', 'u', 'm', 'm', 'y'], some s.toList) := by
      rw [hdata]
      simp [splitFirstColon]
    have h1 : hasColon (String.append "dummy:" s) = true := by
      unfold hasColon
      rw [hsplit]
      rfl
    have h2 : splitColon (String.append "dummy:" s) = ("dummy", s) := by
      unfold splitColon
      rw [hsplit]
      show ("dummy", String.mk s.toList) = ("dummy", s)
      rw [mk_toList]
    simp [evalKeyE, filterStep, h1, h2]

/-- The record of the worked example: latitude 55.0 and longitude 12.0. -/
def dataC8 : List (String × PyVal) := [("lat", .num 55), ("lon", .num 12)]

theorem c8_projection_order_and_dummy_witness :
    (∀ k ∈ ["lat", "dummy:|", "lon"], ∃ v, evalKeyE dataC8 k = .ok v)
    ∧ SatelliteDataPoint_filter dataC8 (some ["lat", "dummy:|", "lon"]) false =
        .ok (some "55.0|12.0") := by
  have h : ∀ k ∈ ["lat", "dummy:|", "lon"], ∃ v, evalKeyE dataC8 k = .ok v := by
    intro k hk
    simp only [List.mem_cons, List.not_mem_nil, or_false] at hk
    rcases hk with rfl | rfl | rfl
    · exact ⟨.num 55, rfl⟩
    · exact ⟨.str "|", rfl⟩
    · exact ⟨.num 12, rfl⟩
  refine ⟨h, ?_⟩
  have h2 := (c8_projection_order_and_dummy dataC8 ["lat", "dummy:|", "lon"] h).1
  rw [h2]
  rfl

/-- C6 (failing evaluation): with the skip-if-any-missing flag enabled and a
requested field whose stored value is the missing sentinel, `filter` does
not return the no-result `None`: its missing-check loop references the
undefined name `variable` and raises `NameError` on the first stored item,
before any field is formatted. -/
theorem c6_skip_missing_raises_nameerror :
    SatelliteDataPoint_filter
        [("analysed_sst", PyVal.missing), ("lat", PyVal.num 55)]
        (some ["analysed_sst"]) true = .error .nameError
    ∧ ∀ o, SatelliteDataPoint_filter
        [("analysed_sst", PyVal.missing), ("lat", PyVal.num 55)]
        (some ["analysed_sst"]) true ≠ .ok o := by
  refine ⟨rfl, ?_⟩
  intro o h
  have h1 : SatelliteDataPoint_filter
      [("analysed_sst", PyVal.missing), ("lat", PyVal.num 55)]
      (some ["analysed_sst"]) true = .error .nameError := rfl
  rw [h1] at h
  exact Except.noConfusion h

/-- The required-variable scan of `variables_is_in_file` /
`Satellite.has_variables` (`src/print_sat_data.py` lines 64-76,
`src/libs/satellite.py` lines 153-167): the first required name absent from
the file, if any — this is the name written to the warning log. -/
def first_missing_variable (required names : List String) : Option String :=
  required.find? fun r => !names.contains r

/-- The boolean result of the scan: true iff every required variable is
present. -/
def variables_is_in_file (required names : List String) : Bool :=
  (first_missing_variable required names).isNone

/-- The required-variable gate of the query flow (`src/print_sat_data.py`
line 320): `assert(variables_is_in_file(["lat", "lon"], input_filename))` —
a bare `assert`, whose failure raises `AssertionError` carrying no message
and hence no variable name. -/
def query_variable_check (names : List String) : Except PyError Unit :=
  if variables_is_in_file ["lat", "lon"] names then .ok ()
  else .error .assertionError

/-- C7 (counterexample): on a file exposing `lat` but not `lon`, the query
gate fails with a bare `AssertionError`; the first absent required variable
(`lon`) is identified only by the boolean scan for the warning log, while
the raised error carries no message parts at all — no error naming the
variable is raised. -/
theorem c7_counterexample_no_variable_name :
    query_variable_check ["lat", "time", "analysed_sst", "mask"]
      = .error .assertionError
    ∧ first_missing_variable ["lat", "lon"]
        ["lat", "time", "analysed_sst", "mask"] = some "lon"
    ∧ PyError.messageParts .assertionError = [] :=
  ⟨rfl, rfl, rfl⟩

/-- C7 (amended): the query flow confirms the grid exposes `lat` and `lon`
before reading values — the gate fails exactly when a required variable is
absent and succeeds exactly when both are present; the first absent name is
reported only via the warning-logged scan while the raised error is a bare
assertion failure with no message; and a range error raised while locating
the nearest cell propagates out of `Satellite.data` unchanged. -/
theorem c7_variable_check_and_propagation (names : List String) :
    (query_variable_check names = .error .assertionError ↔
      first_missing_variable ["lat", "lon"] names ≠ none)
    ∧ (query_variable_check names = .ok () ↔
      ("lat" ∈ names ∧ "lon" ∈ names))
    ∧ PyError.messageParts .assertionError = []
    ∧ (∀ (g : Grid) (clat clon dLat dLon : ℚ) (e : PyError),
        get_closest_lat_lon_indexes g clat clon = .error e →
        Satellite_data g clat clon dLat dLon = .error e) := by
  refine ⟨?_, ?_, rfl, ?_⟩
  · unfold query_variable_check variables_is_in_file
    cases hf : first_missing_variable ["lat", "lon"] names with
    | none => simp [hf]
    | some m => simp [hf]
  · unfold query_variable_check variables_is_in_file
    unfold first_missing_variable
    rcases hf : List.find? (fun r => !names.contains r) ["lat", "lon"] with _ | m
    · rw [List.find?_eq_none] at hf
      simp only [Option.isNone_none, if_true]
      constructor
      · intro _
        constructor
        · have := hf "lat" (by simp)
          simpa using this
        · have := hf "lon" (by simp)
          simpa using this
      · intro _
        trivial
    · have hm := List.find?_some hf
      have hmem := List.mem_of_find?_eq_some hf
      simp only [Option.isNone_some, Bool.false_eq_true, if_false]
      constructor
      · intro h
        exact Except.noConfusion h
      · rintro ⟨hlat, hlon⟩
        have hm2 : m ∉ names := by simpa using hm
        simp only [List.mem_cons, List.not_mem_nil, or_false] at hmem
        rcases hmem with rfl | rfl
        · exact absurd hlat hm2
        · exact absurd hlon hm2
  · intro g clat clon dLat dLon e h
    unfold Satellite_data
    rw [h]
    rfl

theorem c7_variable_check_and_propagation_witness :
    query_variable_check ["lat", "time"] = .error .assertionError :=
  (c7_variable_check_and_propagation ["lat", "time"]).1.mpr (by decide)

/-- A data file as discovery sees it: its basename and the date parsed from
the `YYYYMMDDHHMMSS` name prefix (as an abstract day number, since date
objects are totally ordered). -/
structure DataFile where
  name : String
  date : ℤ
  deriving DecidableEq, Repr

/-- Character-list prefix test. -/
def isPrefixOfChars : List Char → List Char → Bool
  | [], _ => true
  | _ :: _, [] => false
  | a :: as, b :: bs => a = b && isPrefixOfChars as bs

/-- Python substring test `needle in hay` on character lists. -/
def containsSub (needle : List Char) : List Char → Bool
  | [] => isPrefixOfChars needle []
  | c :: rest => isPrefixOfChars needle (c :: rest) || containsSub needle rest

/-- Python `f.endswith(suffix)` on character lists. -/
def isSuffixOfChars (suffix s : List Char) : Bool :=
  isPrefixOfChars suffix.reverse s.reverse

/-- The filename conditions of file discovery: ends with `.nc` and contains
the provider marker `-DMI-L4`. -/
def candidateFile (f : String) : Bool :=
  isSuffixOfChars ".nc".toList f.toList
    && containsSub "-DMI-L4".toList f.toList

/-- Embedding of the library `get_files_from_datadir`
(`src/libs/satellite.py` lines 20-51): the date bounds are normalized in one
simultaneous assignment `a, b = min(a, b), max(a, b)` (the source comments
that this must be done in one step), then candidate files with
`a <= date < b` are yielded. -/
def get_files_from_datadir (files : List DataFile)
    (date_from_including date_to_excluding : ℤ) : List DataFile :=
  let a := min date_from_including date_to_excluding
  let b := max date_from_including date_to_excluding
  files.filter fun f =>
    candidateFile f.name && decide (a ≤ f.date) && decide (f.date < b)

/-- Embedding of the script-level `get_files_from_datadir`
(`src/print_sat_data.py` lines 15-39): the normalization is two sequential
assignments — `date_from = min(date_from, date_to)` and then
`date_to = max(date_from, date_to)`, where the second already sees the
overwritten `date_from` — and the date filter is inclusive on both ends. -/
def pgv_get_files_from_datadir (files : List DataFile)
    (date_from date_to : ℤ) : List DataFile :=
  let a := min date_from date_to
  let b := max a date_to
  files.filter fun f =>
    candidateFile f.name && decide (a ≤ f.date) && decide (f.date ≤ b)

/-- The library-level discovery is symmetric in its two date arguments. -/
theorem get_files_from_datadir_comm (files : List DataFile) (d1 d2 : ℤ) :
    get_files_from_datadir files d1 d2 = get_files_from_datadir files d2 d1 := by
  unfold get_files_from_datadir
  rw [min_comm, max_comm]

/-- The two example files of March 13 and March 14, 2015. -/
def file0313 : DataFile :=
  { name := "20150313000000-DMI-L4.nc", date := 13 }

/-- Companion file dated one day later. -/
def file0314 : DataFile :=
  { name := "20150314000000-DMI-L4.nc", date := 14 }

/-- C10 (failing evaluation): the script-level discovery is not symmetric in
its date arguments — swapping them loses the later file, because the
sequential min/max normalization collapses the upper bound to the second
argument — while the library-level discovery yields identical results under
the swap. -/
theorem c10_discovery_not_symmetric :
    pgv_get_files_from_datadir [file0313, file0314] 13 14 = [file0313, file0314]
    ∧ pgv_get_files_from_datadir [file0313, file0314] 14 13 = [file0313]
    ∧ get_files_from_datadir [file0313, file0314] 13 14 =
        get_files_from_datadir [file0313, file0314] 14 13 :=
  ⟨rfl, rfl, rfl⟩
